import Mathlib

/-
Verification of aider_wrapper.py: the payload builder (create_message_content),
the clipboard normalization (get_clipboard_content), the prompt autoresponder
(handle_aider_prompts), and the control flow of main() around the staged
temporary file. Strings are modelled as Lean String / List Char; the per-line
behavior of the autoresponder and the terminal paths of main() are modelled
explicitly.
-/

namespace AiderWrapper

/-- The fixed role/behavior preamble: the triple-quoted string bound to
`prompt` at lines 38-187 of aider_wrapper.py, transcribed verbatim. -/
def prompt : String := "\n    You are Claude Dev, a highly skilled software development assistant with extensive knowledge in many programming languages, frameworks, design patterns, and best practices. You can seamlessly switch between multiple specialized roles to provide comprehensive assistance in various aspects of software development. When switching roles, always announce the change explicitly to ensure clarity.\n\n## Capabilities\n\n### General Software Development\n- Read and analyze code in various programming languages.\n- Analyze the problem and create a list of tasks.\n- After creating the list, use <thinking></thinking> tags to think and see if you need to add or remove any tasks.\n- Work on the tasks one by one, don\x27t skip any.\n- Write clean, efficient, and well-documented code.\n- Debug complex issues and provide detailed explanations.\n- Offer architectural insights and design patterns.\n- Implement best coding practices and standards.\n- After finishing the task, use <thinking></thinking> tags to confirm if the change will fix the problem; if not, repeat the process.\n\n### Specialized Roles\n\n#### Expert Debugger\n- Analyze error messages and stack traces.\n- Identify root causes of bugs and performance issues.\n- Suggest efficient debugging strategies.\n- Provide step-by-step troubleshooting instructions.\n- Recommend tools and techniques for effective debugging.\n\n#### Professional Coder\n- Write optimized, scalable, and maintainable code.\n- Implement complex algorithms and data structures.\n- Refactor existing code for improved performance and readability.\n- Integrate third-party libraries and APIs effectively.\n- Develop unit tests and implement test-driven development practices.\n\n#### Code Reviewer\n- Conduct thorough code reviews for quality and consistency.\n- Identify potential bugs, security vulnerabilities, and performance bottlenecks.\n- Suggest improvements in code structure, naming conventions, and documentation.\n- Ensure adherence to coding standards and best practices.\n- Provide constructive feedback to improve overall code quality.\n\n#### UX/UI Designer\n- Create intuitive and visually appealing user interfaces.\n- Design responsive layouts for various devices and screen sizes.\n- Implement modern design principles and patterns.\n- Suggest improvements for user experience and accessibility.\n- Provide guidance on color schemes, typography, and overall aesthetics.\n\n## Rules\n\n1. Work in your current working directory.\n2. Always provide complete file content in your responses, regardless of the extent of changes.\n3. When creating new projects, organize files within a dedicated project directory unless specified otherwise.\n4. Consider the project type (e.g., Python, JavaScript, web application) when determining appropriate structure and files.\n5. Ensure changes are compatible with the existing codebase and follow project coding standards.\n6. Use markdown freely in your responses, including language-specific code blocks.\n7. Do not start responses with affirmations like \"Certainly\", \"Okay\", \"Sure\", etc. Be direct and to the point.\n8. When switching roles, explicitly mention the role you\x27re assuming for clarity, even repeating this when changing roles or returning to a previous role.\n\n## Code Regeneration Approach\n\n1. Ensure that you maintain the overall structure and logic of the code, unless the changes explicitly modify them.\n2. Pay special attention to proper indentation and formatting throughout the entire file.\n3. If a requested change seems inconsistent or problematic, use your expertise to implement it in the most logical way possible.\n4. Wrap the regenerated code in a Python markdown code block.\n\n## Objective\n\nAccomplish given tasks iteratively, breaking them down into clear steps:\n\n1. Analyze the user\x27s task and set clear, achievable goals.\n2. Prioritize goals in a logical order.\n3. Work through goals sequentially, utilizing your multi-role expertise as needed.\n4. Before taking action, analyze the task within <thinking></thinking> tags:\n   - Determine which specialized role is most appropriate for the current step.\n   - Consider the context and requirements of the task.\n   - Plan your approach using the capabilities of the chosen role.\n5. Execute the planned actions, explicitly mentioning when switching roles for clarity.\n6. Once the task is completed, present the result to the user.\n7. If feedback is provided, use it to make improvements and iterate on the solution.\n\n## Example *SEARCH/REPLACE block*\n\nTo make this change, we need to modify `main.py` and create a new file `hello.py`:\n\n1. Make a new `hello.py` file with `hello()` in it.\n2. Remove `hello()` from `main.py` and replace it with an import.\n\nHere are the *SEARCH/REPLACE* blocks:\n\n```\nhello.py\n<<<<<<< SEARCH.\n=======\ndef hello():\n    \"print a greeting\"\n\n    print(\"hello\")\n>>>>>>> REPLACE.\n```\n\n```\nmain.py\n<<<<<<< SEARCH.\ndef hello():\n    \"print a greeting\"\n\n    print(\"hello\")\n=======\nfrom hello import hello\n>>>>>>> REPLACE.\n```\n\n## *SEARCH/REPLACE block* Rules\n\n1. The *FULL* file path alone on a line, verbatim. No bold asterisks, no quotes around it, no escaping of characters, etc.\n2. The start of the search block: <<<<<<< SEARCH.\n3. A contiguous chunk of lines to search for in the existing source code.\n4. The dividing line: =======.\n5. The lines to replace into the source code.\n6. The end of the replace block: >>>>>>> REPLACE.\n7. The closing fence: >>>>>>> REPLACE.\n\nUse the *FULL* file path, as shown to you by the user.\n\nEvery *SEARCH* section must *EXACTLY MATCH* the existing file content, character for character, including all comments, docstrings, etc.\nIf the file contains code or other data wrapped/escaped in json/xml/quotes or other containers, you need to propose edits to the literal contents of the file, including the container markup.\n\n*SEARCH/REPLACE* blocks will replace *all* matching occurrences.\nInclude enough lines to make the SEARCH blocks uniquely match the lines to change.\nKeep *SEARCH/REPLACE* blocks concise.\nBreak large *SEARCH/REPLACE* blocks into a series of smaller blocks that each change a small portion of the file.\nInclude just the changing lines, and a few surrounding lines if needed for uniqueness.\nDo not include long runs of unchanging lines in *SEARCH/REPLACE* blocks.\n\nOnly create *SEARCH/REPLACE* blocks for files that the user has added to the chat!\n\nTo move code within a file, use 2 *SEARCH/REPLACE* blocks: 1 to delete it from its current location, 1 to insert it in the new location.\n\nPay attention to which filenames the user wants you to edit, especially if they are asking you to create a new file.\n\nIf you want to put code in a new file, use a *SEARCH/REPLACE* block with:\n- A new file path, including dir name if needed.\n- An empty `SEARCH` section.\n- The new file\x27s contents in the `REPLACE` section.\n\n    ###Task problem_description\n    <task_description>\n    {task}\n    </task_description>\n\n"

/-- The payload builder, `create_message_content(instructions, file_contents)`
at lines 36-189. The file mapping is modelled as an association list in
insertion order. As in the source, `existing_code` is built from the file
mapping and then never used: the returned document is the fixed preamble
followed by the problem description only. -/
def create_message_content (instructions : String) (file_contents : List (String × String)) : String :=
  let existing_code := String.intercalate "\n\n"
    (file_contents.map (fun fc => "File: " ++ fc.1 ++ "\n```\n" ++ fc.2 ++ "\n```"))
  prompt ++ "\n\n<problem_description>\n" ++ instructions ++ "\n</problem_description>"

/-- Substring test on character lists: `pat` occurs (contiguously) somewhere in
the second list. This models the Python operator `pat in line` and the
searching aspect of `re.search`. -/
def containsB (pat : List Char) : List Char → Bool
  | [] => pat.isEmpty
  | c :: rest => pat.isPrefixOf (c :: rest) || containsB pat rest

/-- The literal part of the per-file prompt regex that follows `.+` in
`r"Add .+ to the chat\? \(Y\)es/\(N\)o \[Yes\]:"` (line 234). -/
def filePromptTail : List Char := " to the chat? (Y)es/(N)o [Yes]:".toList

/-- The literal `"Add "` that opens the per-file prompt regex (line 234). -/
def addLit : List Char := "Add ".toList

/-- The multi-link prompt literal tested by substring containment at line 239. -/
def multiLinkPrompt : List Char :=
  "Add URL to the chat? (Y)es/(N)o/(A)ll/(S)kip all [Yes]:".toList

/-- The single-link prompt literal tested by substring containment at line 244. -/
def singleLinkPrompt : List Char :=
  "Add URL to the chat? (Y)es/(N)o [Yes]:".toList

/-- Matching of `.+` followed by the fixed tail, anchored at the current
position: one or more characters, none of them a newline (regex `.` does not
match `'\n'`), followed immediately by `tail`. -/
def dotPlusThen (tail : List Char) : List Char → Bool
  | [] => false
  | c :: rest => (c != '\n') && (tail.isPrefixOf rest || dotPlusThen tail rest)

/-- The unanchored search `re.search of r"Add .+ to the chat\? ..." in line` of
line 234: at some position the line has `"Add "`, then `.+`, then the fixed
tail. -/
def filePromptSearch : List Char → Bool
  | [] => false
  | c :: rest =>
    (addLit.isPrefixOf (c :: rest) && dotPlusThen filePromptTail ((c :: rest).drop 4))
      || filePromptSearch rest

/-- The characters written for an affirmative per-file response,
`process.stdin.write of "Y\n"` at line 235. -/
def yesWrite : List Char := "Y\n".toList

/-- The characters written for the skip-all response, line 240. -/
def skipAllWrite : List Char := "S\n".toList

/-- The characters written for the negative single-link response, line 245. -/
def noWrite : List Char := "N\n".toList

/-- Per-line behavior of `handle_aider_prompts` (the if/elif chain at lines
233-246): the list of writes made to the child's stdin for one observed output
line, in order. The chain checks the per-file regex first, then the
multi-link literal, then the single-link literal; each branch performs exactly
one write, and a line matching nothing performs none. -/
def handle_prompt_line (line : List Char) : List (List Char) :=
  if filePromptSearch line then [yesWrite]
  else if containsB multiLinkPrompt line then [skipAllWrite]
  else if containsB singleLinkPrompt line then [noWrite]
  else []

/-- One pass of `content.replace of "\r\n" by "\n"` (line 214): left-to-right,
non-overlapping replacement of the two-character pattern. -/
def replCRLF : List Char → List Char
  | '\r' :: '\n' :: rest => '\n' :: replCRLF rest
  | c :: rest => c :: replCRLF rest
  | [] => []

/-- One pass of `content.replace of "\r" by "\n"` (line 214). -/
def replCR : List Char → List Char
  | '\r' :: rest => '\n' :: replCR rest
  | c :: rest => c :: replCR rest
  | [] => []

/-- Three consecutive newlines, the pattern of the while loop at line 215. -/
def tripleNL : List Char := ['\n', '\n', '\n']

/-- One pass of `content.replace of "\n\n\n" by "\n\n"` (line 216): left-to-right,
non-overlapping. -/
def replNNN : List Char → List Char
  | '\n' :: '\n' :: '\n' :: rest => '\n' :: '\n' :: replNNN rest
  | c :: rest => c :: replNNN rest
  | [] => []

/-- The loop of lines 215-216 (while "\n\n\n" occurs in content, replace it
by "\n\n"), with an explicit iteration bound. Each iteration on
a string containing the pattern strictly shortens the string (each replacement
drops one character), so the string's initial length bounds the number of
iterations and the bounded recursion computes exactly the loop's result. -/
def collapseFuel : Nat → List Char → List Char
  | 0, s => s
  | n + 1, s => if containsB tripleNL s then collapseFuel n (replNNN s) else s

/-- The fully collapsed text: the while loop of lines 215-216 run to
completion. -/
def collapseNewlines (s : List Char) : List Char := collapseFuel s.length s

/-- Python's `str.strip()` whitespace class, restricted to the ASCII
whitespace characters (space, tab, newline, carriage return, vertical tab,
form feed). -/
def isPySpace (c : Char) : Bool :=
  c == ' ' || c == '\t' || c == '\n' || c == '\r' || c == '\x0b' || c == '\x0c'

/-- Python's `content.strip()` (line 217): remove leading and trailing
whitespace. -/
def pyStrip (s : List Char) : List Char :=
  ((s.dropWhile isPySpace).reverse.dropWhile isPySpace).reverse

/-- The clipboard normalization performed by `get_clipboard_content` on the
pasted text (lines 213-217): normalize both line-ending variants to `'\n'`,
collapse runs of three or more newlines down to two, then strip leading and
trailing whitespace. -/
def normalize_clipboard (s : List Char) : List Char :=
  pyStrip (collapseNewlines (replCR (replCRLF s)))

/-- First character of a list, if any, is not Python whitespace; likewise the
last. This is what `str.strip` guarantees of its result. -/
def trimmedB (s : List Char) : Bool :=
  (match s.head? with
   | none => true
   | some c => !isPySpace c) &&
  (match s.getLast? with
   | none => true
   | some c => !isPySpace c)

/-- The command-line arguments relevant to resource control (lines 250-252):
the clipboard flag and the optional instruction-file path. -/
structure CliArgs where
  clipboard : Bool
  instructions : Option String
deriving DecidableEq

/-- Python truthiness of `args.instructions`: a missing option is `None`
(falsy) and a supplied empty string is also falsy, as tested by
`if args.clipboard and args.instructions:` at line 259. -/
def instructionsTruthy (o : Option String) : Bool :=
  match o with
  | none => false
  | some s => !s.isEmpty

/-- Observable events of a run of `main()`, in program order. -/
inductive RunEvent
  | usageError : RunEvent
  | stageWrite : RunEvent
  | spawnChild : RunEvent
  | moveTemp : RunEvent
  | unlinkTemp : RunEvent
deriving DecidableEq

/-- How the supervised part of the run ends: an IOError while writing the
staged file (line 310), the child exiting with a code (line 343), a
KeyboardInterrupt during supervision (line 352), or any other exception
(line 355). -/
inductive ChildOutcome
  | stageIOError : ChildOutcome
  | exits : Nat → ChildOutcome
  | interrupted : ChildOutcome
  | raised : ChildOutcome
deriving DecidableEq

/-- Whether `shutil.move` at line 363 succeeds or raises IOError. -/
inductive MoveOutcome
  | ok : MoveOutcome
  | ioError : MoveOutcome
deriving DecidableEq

/-- The observable result of one run of `main()`: the events in order, the
process exit code, and whether a file is still present at the staged
temporary path when the process exits. -/
structure RunResult where
  events : List RunEvent
  exitCode : Nat
  tempRemains : Bool
deriving DecidableEq

/-- Control-flow model of `main()` (lines 248-372), translated branch by
branch from the source.

Argument validation (lines 259-265) happens first: `parser.error` prints a
usage message and terminates the process with argparse's usage-error status 2,
before the temporary file is created or the child spawned. (The `print` and
`sys.exit(1)` at lines 264-265 sit after a `parser.error` call and are
unreachable.)

Otherwise `tempfile.NamedTemporaryFile(delete=False)` creates the staged file
and the document is written to it (lines 305-309); an IOError there is caught
and answered with `sys.exit(1)` (line 312), leaving the created file in place.

The child then runs under the try of lines 338-358. If it exits nonzero,
`subprocess.CalledProcessError` is raised and caught; on it, on
KeyboardInterrupt and on any other exception the handler calls `sys.exit(1)`.
`sys.exit` raises SystemExit, which none of those except clauses catch, so it
propagates out of `main` and the move/unlink block at lines 360-372 is never
reached: no removal of the staged file is attempted and it remains on disk.

Only when the child exits 0 does control reach lines 360-372: `shutil.move`
relocates the staged file into the working directory (or fails with IOError,
which is only printed), and the `finally` block attempts `os.unlink` on the
staged path exactly once, swallowing OSError, so afterwards no file is at the
temporary path whether or not the move succeeded. Falling off the end of
`main` exits the process with code 0. -/
def main_run (a : CliArgs) (o : ChildOutcome) (mv : MoveOutcome) : RunResult :=
  if a.clipboard && instructionsTruthy a.instructions then
    ⟨[RunEvent.usageError], 2, false⟩
  else if !a.clipboard && !(instructionsTruthy a.instructions) then
    ⟨[RunEvent.usageError], 2, false⟩
  else
    match o with
    | ChildOutcome.stageIOError =>
      ⟨[RunEvent.stageWrite], 1, true⟩
    | ChildOutcome.exits 0 =>
      match mv with
      | MoveOutcome.ok =>
        ⟨[RunEvent.stageWrite, RunEvent.spawnChild, RunEvent.moveTemp, RunEvent.unlinkTemp], 0, false⟩
      | MoveOutcome.ioError =>
        ⟨[RunEvent.stageWrite, RunEvent.spawnChild, RunEvent.moveTemp, RunEvent.unlinkTemp], 0, false⟩
    | ChildOutcome.exits (_ + 1) =>
      ⟨[RunEvent.stageWrite, RunEvent.spawnChild], 1, true⟩
    | ChildOutcome.interrupted =>
      ⟨[RunEvent.stageWrite, RunEvent.spawnChild], 1, true⟩
    | ChildOutcome.raised =>
      ⟨[RunEvent.stageWrite, RunEvent.spawnChild], 1, true⟩

theorem containsB_cons (pat : List Char) (c : Char) (rest : List Char) :
    containsB pat (c :: rest) = (pat.isPrefixOf (c :: rest) || containsB pat rest) := rfl

theorem dotPlusThen_cons (tail : List Char) (c : Char) (rest : List Char) :
    dotPlusThen tail (c :: rest)
      = ((c != '\n') && (tail.isPrefixOf rest || dotPlusThen tail rest)) := rfl

theorem filePromptSearch_cons (c : Char) (rest : List Char) :
    filePromptSearch (c :: rest)
      = ((addLit.isPrefixOf (c :: rest) && dotPlusThen filePromptTail ((c :: rest).drop 4))
          || filePromptSearch rest) := rfl

/-- A prefix of a list extended on the right is still matched by isPrefixOf. -/
theorem isPrefixOf_append_self (l t : List Char) : l.isPrefixOf (l ++ t) = true := by
  rw [List.isPrefixOf_iff_prefix]
  exact ⟨t, rfl⟩

/-- If the per-file regex matches somewhere in `t`, it matches in `pre ++ t`:
`re.search` scans the whole line. -/
theorem filePromptSearch_append_left (pre t : List Char)
    (h : filePromptSearch t = true) : filePromptSearch (pre ++ t) = true := by
  induction pre with
  | nil => simpa using h
  | cons c rest ih =>
    rw [List.cons_append, filePromptSearch_cons]
    simp [ih]

/-- The `.+` part of the per-file regex matches any nonempty newline-free
segment standing between `"Add "` and the literal tail. -/
theorem dotPlusThen_middle (tail post : List Char) :
    ∀ (mid : List Char), mid ≠ [] → '\n' ∉ mid →
      dotPlusThen tail (mid ++ (tail ++ post)) = true := by
  intro mid
  induction mid with
  | nil => intro h; exact absurd rfl h
  | cons c ms ih =>
    intro _ hnl
    rw [List.cons_append, dotPlusThen_cons]
    have hc : (c != '\n') = true := by
      simp only [bne_iff_ne, ne_eq]
      intro hceq
      exact hnl (hceq ▸ List.mem_cons_self c ms)
    rw [hc, Bool.true_and]
    cases ms with
    | nil =>
      simp [isPrefixOf_append_self]
    | cons m ms2 =>
      have := ih (by simp) (fun hm => hnl (List.mem_cons_of_mem c hm))
      rw [Bool.or_eq_true]
      exact Or.inr (by simpa using this)

/-- The per-file regex matches a line that starts with `"Add "` followed by
text on which `.+` plus the fixed tail match. -/
theorem filePromptSearch_here (x : List Char)
    (h : dotPlusThen filePromptTail x = true) :
    filePromptSearch (addLit ++ x) = true := by
  have ha : addLit = ['A', 'd', 'd', ' '] := rfl
  rw [ha]
  show filePromptSearch ('A' :: 'd' :: 'd' :: ' ' :: x) = true
  rw [filePromptSearch_cons, Bool.or_eq_true]
  left
  rw [Bool.and_eq_true]
  constructor
  · rw [ha]
    exact isPrefixOf_append_self ['A', 'd', 'd', ' '] x
  · simpa [List.drop] using h

/-- C4: for the output line that is exactly
`Add foo.py to the chat? (Y)es/(N)o [Yes]:`, the autoresponder performs
exactly one write, the character `Y` followed by the line terminator `\n`
(the per-file rule at lines 234-236). -/
theorem c4_per_file_prompt_gets_yes :
    handle_prompt_line ("Add foo.py to the chat? (Y)es/(N)o [Yes]:".toList) = [yesWrite]
      ∧ yesWrite = ['Y', '\n'] := by
  constructor
  · decide
  · decide

/-- C3 evaluation: for an output line that is exactly the single-link prompt
`Add URL to the chat? (Y)es/(N)o [Yes]:`, the code writes `Y\n`, not `N\n`:
the per-file regex `Add .+ to the chat\? \(Y\)es/\(N\)o \[Yes\]:` is checked
first and its `.+` matches the text `URL`, so the single-link branch at
lines 243-246 can never be reached for any line containing this prompt. -/
theorem c3_single_link_prompt_gets_yes_not_no :
    handle_prompt_line singleLinkPrompt = [yesWrite]
      ∧ handle_prompt_line singleLinkPrompt ≠ [noWrite] := by
  constructor
  · decide
  · decide

/-- C5 counterexample: a line that contains the multi-link prompt but also
contains a per-file prompt earlier is answered by the per-file rule (checked
first), with `Y\n`, not `S\n` — so "every line containing the multi-link
prompt gets `S`" is false as a universal statement. -/
theorem c5_counterexample_line_with_both_prompts :
    containsB multiLinkPrompt
        ("Add a.py to the chat? (Y)es/(N)o [Yes]: ".toList ++ multiLinkPrompt) = true
      ∧ handle_prompt_line
          ("Add a.py to the chat? (Y)es/(N)o [Yes]: ".toList ++ multiLinkPrompt) = [yesWrite]
      ∧ handle_prompt_line
          ("Add a.py to the chat? (Y)es/(N)o [Yes]: ".toList ++ multiLinkPrompt)
          ≠ [skipAllWrite] := by
  refine ⟨by decide, by decide, by decide⟩

/-- C5 amended: an output line that contains the multi-link prompt and does
not match the per-file rule (which is checked first) is answered with exactly
one write, `S` followed by the line terminator (lines 238-241). The exact
multi-link prompt line itself satisfies both conditions. -/
theorem c5_multi_link_prompt_gets_skip_all (line : List Char)
    (hm : containsB multiLinkPrompt line = true)
    (hf : filePromptSearch line = false) :
    handle_prompt_line line = [skipAllWrite] ∧ skipAllWrite = ['S', '\n'] := by
  refine ⟨?_, by decide⟩
  simp [handle_prompt_line, hm, hf]

theorem c5_multi_link_prompt_gets_skip_all_witness :
    containsB multiLinkPrompt multiLinkPrompt = true
      ∧ filePromptSearch multiLinkPrompt = false
      ∧ handle_prompt_line multiLinkPrompt = [skipAllWrite] :=
  ⟨by decide, by decide,
    (c5_multi_link_prompt_gets_skip_all multiLinkPrompt (by decide) (by decide)).1⟩

/-- C6: for every output line the autoresponder performs at most one write;
the write is empty exactly when none of the three patterns (per-file,
multi-link, single-link) matches; and the write performed is that of the
first matching rule in the fixed priority order of lines 233-246. -/
theorem c6_at_most_one_write_first_rule_wins (line : List Char) :
    (handle_prompt_line line).length ≤ 1
      ∧ (handle_prompt_line line).isEmpty
          = (!(filePromptSearch line || containsB multiLinkPrompt line
                || containsB singleLinkPrompt line))
      ∧ (handle_prompt_line line).head?
          = (if filePromptSearch line then some yesWrite
             else if containsB multiLinkPrompt line then some skipAllWrite
             else if containsB singleLinkPrompt line then some noWrite
             else none) := by
  cases hf : filePromptSearch line <;>
    cases hm : containsB multiLinkPrompt line <;>
      cases hs : containsB singleLinkPrompt line <;>
        simp [handle_prompt_line, hf, hm, hs]

/-- C10: any output line containing a substring of the shape
`Add X to the chat? (Y)es/(N)o [Yes]:` — with `X` nonempty and free of
newlines, as any single line read by `readline` is — is matched by the
per-file rule, which is checked first, and is answered with `Y` plus the
line terminator. In particular this holds when `X` is the literal `URL`. -/
theorem c10_per_file_rule_matches_url_too (pre mid post : List Char)
    (hne : mid ≠ []) (hnl : '\n' ∉ mid) :
    handle_prompt_line (pre ++ addLit ++ mid ++ filePromptTail ++ post) = [yesWrite] := by
  have hx : dotPlusThen filePromptTail (mid ++ (filePromptTail ++ post)) = true :=
    dotPlusThen_middle filePromptTail post mid hne hnl
  have hh : filePromptSearch (addLit ++ (mid ++ (filePromptTail ++ post))) = true :=
    filePromptSearch_here _ hx
  have hs : filePromptSearch (pre ++ (addLit ++ (mid ++ (filePromptTail ++ post)))) = true :=
    filePromptSearch_append_left pre _ hh
  simp [handle_prompt_line, List.append_assoc, hs]

theorem c10_per_file_rule_matches_url_too_witness :
    ("URL".toList ≠ ([] : List Char))
      ∧ '\n' ∉ "URL".toList
      ∧ handle_prompt_line ([] ++ addLit ++ "URL".toList ++ filePromptTail ++ []) = [yesWrite] :=
  ⟨by decide, by decide,
    c10_per_file_rule_matches_url_too [] "URL".toList [] (by decide) (by decide)⟩

theorem replNNN_length_le (s : List Char) : (replNNN s).length ≤ s.length := by
  induction s using replNNN.induct with
  | case1 rest ih => simp [replNNN]; omega
  | case2 c rest h ih =>
    rw [replNNN.eq_2 c rest h]
    simpa using ih
  | case3 => simp [replNNN]

/-- The three-newline pattern is a prefix of `c :: rest` exactly when the
first three characters are newlines. -/
theorem tripleNL_isPrefixOf_cons (c : Char) (rest : List Char) :
    tripleNL.isPrefixOf (c :: rest) = true
      ↔ c = '\n' ∧ ∃ r, rest = '\n' :: '\n' :: r := by
  rw [List.isPrefixOf_iff_prefix]
  constructor
  · intro h
    rcases h with ⟨t, ht⟩
    have : c :: rest = '\n' :: '\n' :: '\n' :: t := by
      simpa [tripleNL] using ht.symm
    injection this with h1 h2
    exact ⟨h1, t, h2⟩
  · rintro ⟨rfl, r, rfl⟩
    exact ⟨r, rfl⟩

/-- A replacement pass over a string that does contain the pattern strictly
shortens it. -/
theorem replNNN_length_lt (s : List Char) (h : containsB tripleNL s = true) :
    (replNNN s).length < s.length := by
  induction s using replNNN.induct with
  | case1 rest ih =>
    rw [replNNN.eq_1]
    have hle := replNNN_length_le rest
    simp only [List.length_cons]
    omega
  | case2 c rest hne ih =>
    rw [replNNN.eq_2 c rest hne]
    rw [containsB_cons, Bool.or_eq_true] at h
    rcases h with h | h
    · rcases (tripleNL_isPrefixOf_cons c rest).mp h with ⟨rfl, r, rfl⟩
      exact (hne r rfl rfl).elim
    · simpa using ih h
  | case3 => simp [containsB, tripleNL] at h

/-- After the while loop of lines 215-216 has run to completion, the string
no longer contains three consecutive newlines. -/
theorem collapseFuel_no_triple : ∀ (n : Nat) (s : List Char), s.length ≤ n →
    containsB tripleNL (collapseFuel n s) = false := by
  intro n
  induction n with
  | zero =>
    intro s hs
    have : s = [] := List.eq_nil_of_length_eq_zero (Nat.le_zero.mp hs)
    subst this
    decide
  | succ n ih =>
    intro s hs
    have hstep : collapseFuel (n + 1) s
        = if containsB tripleNL s then collapseFuel n (replNNN s) else s := rfl
    by_cases hc : containsB tripleNL s = true
    · rw [hstep, if_pos hc]
      exact ih _ (by have := replNNN_length_lt s hc; omega)
    · rw [hstep, if_neg hc]
      simpa using hc

/-- After `content.replace of "\r" by "\n"` no carriage return remains. -/
theorem replCR_no_cr (s : List Char) : '\r' ∉ replCR s := by
  induction s using replCR.induct with
  | case1 rest ih =>
    rw [replCR.eq_1]
    intro hmem
    rcases List.mem_cons.mp hmem with h | h
    · exact absurd h.symm (by decide)
    · exact ih h
  | case2 c rest hne ih =>
    rw [replCR.eq_2 c rest hne]
    intro hmem
    rcases List.mem_cons.mp hmem with h | h
    · exact hne (h ▸ rfl)
    · exact ih h
  | case3 => simp [replCR]

/-- Characters of a collapse pass come from the input (or are newlines). -/
theorem replNNN_mem (s : List Char) (a : Char) (h : a ∈ replNNN s) :
    a = '\n' ∨ a ∈ s := by
  induction s using replNNN.induct with
  | case1 rest ih =>
    rw [replNNN.eq_1] at h
    rcases List.mem_cons.mp h with h | h
    · exact Or.inl h
    · rcases List.mem_cons.mp h with h | h
      · exact Or.inl h
      · rcases ih h with h | h
        · exact Or.inl h
        · exact Or.inr (by simp [h])
  | case2 c rest hne ih =>
    rw [replNNN.eq_2 c rest hne] at h
    rcases List.mem_cons.mp h with h | h
    · exact Or.inr (by simp [h])
    · rcases ih h with h | h
      · exact Or.inl h
      · exact Or.inr (by simp [h])
  | case3 => simp [replNNN] at h

/-- Characters of the fully collapsed text come from the input (or are
newlines). -/
theorem collapseFuel_mem : ∀ (n : Nat) (s : List Char) (a : Char),
    a ∈ collapseFuel n s → a = '\n' ∨ a ∈ s := by
  intro n
  induction n with
  | zero => exact fun s a h => Or.inr h
  | succ n ih =>
    intro s a h
    have hstep : collapseFuel (n + 1) s
        = if containsB tripleNL s then collapseFuel n (replNNN s) else s := rfl
    rw [hstep] at h
    by_cases hc : containsB tripleNL s = true
    · rw [if_pos hc] at h
      rcases ih _ _ h with h | h
      · exact Or.inl h
      · exact replNNN_mem s a h
    · rw [if_neg hc] at h
      exact Or.inr h

/-- The executable substring test agrees with the infix relation. -/
theorem containsB_true_iff (pat : List Char) : ∀ (s : List Char),
    containsB pat s = true ↔ pat <:+: s := by
  intro s
  induction s with
  | nil =>
    constructor
    · intro h
      have : pat = [] := List.isEmpty_iff.mp (by simpa [containsB] using h)
      simp [this]
    · intro h
      have : pat = [] := List.infix_nil.mp h
      simp [containsB, this]
  | cons c rest ih =>
    rw [containsB_cons, Bool.or_eq_true, List.infix_cons_iff]
    rw [List.isPrefixOf_iff_prefix, ih]

/-- The stripped text is a contiguous piece of the original. -/
theorem pyStrip_contiguous (s : List Char) : pyStrip s <:+: s := by
  have h1 : s.dropWhile isPySpace <:+ s := List.dropWhile_suffix isPySpace
  have h2 : (s.dropWhile isPySpace).reverse.dropWhile isPySpace
      <:+ (s.dropWhile isPySpace).reverse := List.dropWhile_suffix isPySpace
  have h3 : pyStrip s <+: s.dropWhile isPySpace := by
    rw [pyStrip.eq_def]
    have := (@List.reverse_suffix Char
      ((s.dropWhile isPySpace).reverse.dropWhile isPySpace).reverse
      (s.dropWhile isPySpace)).mp (by simpa using h2)
    exact this
  exact h3.isInfix.trans h1.isInfix

theorem pyStrip_mem (s : List Char) (a : Char) (h : a ∈ pyStrip s) : a ∈ s :=
  (pyStrip_contiguous s).subset h

/-- The first element surviving dropWhile fails the predicate. -/
theorem dropWhile_head?_false (p : Char → Bool) : ∀ (l : List Char) (c : Char),
    (List.dropWhile p l).head? = some c → p c = false := by
  intro l
  induction l with
  | nil => intro c h; simp [List.dropWhile] at h
  | cons a l ih =>
    intro c h
    rw [List.dropWhile_cons] at h
    by_cases hp : p a = true
    · rw [if_pos hp] at h
      exact ih c h
    · rw [if_neg hp] at h
      have : a = c := by simpa using h
      subst this
      simpa using hp

/-- The result of `str.strip()` has no leading or trailing whitespace. -/
theorem pyStrip_trimmed (s : List Char) : trimmedB (pyStrip s) = true := by
  by_cases hzn : (s.dropWhile isPySpace).reverse.dropWhile isPySpace = []
  · have h0 : pyStrip s = [] := by
      show ((s.dropWhile isPySpace).reverse.dropWhile isPySpace).reverse = []
      rw [hzn]
      rfl
    rw [h0]
    rfl
  · have hhead : (pyStrip s).head? = (s.dropWhile isPySpace).head? := by
      show ((s.dropWhile isPySpace).reverse.dropWhile isPySpace).reverse.head? = _
      rw [List.head?_reverse]
      rcases (List.dropWhile_suffix isPySpace :
          (s.dropWhile isPySpace).reverse.dropWhile isPySpace
            <:+ (s.dropWhile isPySpace).reverse) with ⟨t, ht⟩
      calc ((s.dropWhile isPySpace).reverse.dropWhile isPySpace).getLast?
          = (t ++ (s.dropWhile isPySpace).reverse.dropWhile isPySpace).getLast? :=
            (List.getLast?_append_of_ne_nil t hzn).symm
        _ = (s.dropWhile isPySpace).reverse.getLast? := by rw [ht]
        _ = (s.dropWhile isPySpace).head? := List.getLast?_reverse _
    have hlast : (pyStrip s).getLast?
        = ((s.dropWhile isPySpace).reverse.dropWhile isPySpace).head? := by
      show ((s.dropWhile isPySpace).reverse.dropWhile isPySpace).reverse.getLast? = _
      exact List.getLast?_reverse _
    have hA : (match (s.dropWhile isPySpace).head? with
        | none => true
        | some c => !isPySpace c) = true := by
      cases hh : (s.dropWhile isPySpace).head? with
      | none => rfl
      | some c => simpa using dropWhile_head?_false isPySpace s c hh
    have hB : (match ((s.dropWhile isPySpace).reverse.dropWhile isPySpace).head? with
        | none => true
        | some c => !isPySpace c) = true := by
      cases hh : ((s.dropWhile isPySpace).reverse.dropWhile isPySpace).head? with
      | none => rfl
      | some c =>
        simpa using dropWhile_head?_false isPySpace (s.dropWhile isPySpace).reverse c hh
    show ((match (pyStrip s).head? with
        | none => true
        | some c => !isPySpace c) &&
      (match (pyStrip s).getLast? with
        | none => true
        | some c => !isPySpace c)) = true
    rw [hhead, hlast, hA, hB]
    rfl

/-- C7: clipboard text normalization (lines 213-217). For every input, the
normalized text contains no carriage return (both `\r\n` and bare `\r` have
become `\n`), never three consecutive newlines (so at most one blank line
remains in any run), and no leading or trailing whitespace; and the concrete
input `"a\r\nb\r\n\r\n\r\nc"` normalizes to exactly `"a\nb\n\nc"`. -/
theorem c7_clipboard_normalization :
    (∀ s : List Char,
        containsB ['\r'] (normalize_clipboard s) = false
          ∧ containsB tripleNL (normalize_clipboard s) = false
          ∧ trimmedB (normalize_clipboard s) = true)
      ∧ normalize_clipboard ("a\r\nb\r\n\r\n\r\nc".toList) = "a\nb\n\nc".toList := by
  constructor
  · intro s
    refine ⟨?_, ?_, pyStrip_trimmed _⟩
    · by_contra hcr
      have hcr2 : containsB ['\r'] (normalize_clipboard s) = true := by
        cases hx : containsB ['\r'] (normalize_clipboard s)
        · exact absurd hx hcr
        · rfl
      have hinf : ['\r'] <:+: normalize_clipboard s :=
        (containsB_true_iff ['\r'] _).mp hcr2
      have hmem : '\r' ∈ normalize_clipboard s :=
        List.singleton_sublist.mp hinf.sublist
      have hmem2 : '\r' ∈ collapseNewlines (replCR (replCRLF s)) :=
        pyStrip_mem _ _ hmem
      rcases collapseFuel_mem _ _ _ hmem2 with h | h
      · exact absurd h (by decide)
      · exact replCR_no_cr (replCRLF s) h
    · by_contra htr
      have htr2 : containsB tripleNL (normalize_clipboard s) = true := by
        cases hx : containsB tripleNL (normalize_clipboard s)
        · exact absurd hx htr
        · rfl
      have hinf : tripleNL <:+: normalize_clipboard s :=
        (containsB_true_iff tripleNL _).mp htr2
      have hinf2 : tripleNL <:+: collapseNewlines (replCR (replCRLF s)) :=
        hinf.trans (pyStrip_contiguous _)
      have hcb : containsB tripleNL (collapseNewlines (replCR (replCRLF s))) = true :=
        (containsB_true_iff tripleNL _).mpr hinf2
      have hno : containsB tripleNL (collapseNewlines (replCR (replCRLF s))) = false :=
        collapseFuel_no_triple _ _ (Nat.le_refl _)
      rw [hcb] at hno
      exact Bool.true_eq_false.mp hno
  · decide

/-- C2 counterexample: when the child exits nonzero (here with code 1), the
program leaves via `sys.exit(1)` inside the except handler at lines 346-351;
SystemExit propagates past the move/unlink block, so removal of the staged
file is never attempted (count 0, not 1) and the file remains at the
temporary path. -/
theorem c2_no_cleanup_on_child_failure :
    ¬ (((main_run ⟨false, some "notes.txt"⟩ (ChildOutcome.exits 1) MoveOutcome.ok).events.count
          RunEvent.unlinkTemp = 1)
        ∧ (main_run ⟨false, some "notes.txt"⟩ (ChildOutcome.exits 1)
            MoveOutcome.ok).tempRemains = false) := by
  decide

/-- C2 amended: with a valid argument combination, removal of the staged file
is attempted exactly once and as the last step only on the path where the
child exits 0 (and then nothing remains at the temporary path, whether or not
the relocation succeeded); on staging-write failure, nonzero child exit, user
interrupt, or unexpected exception, no removal is attempted, the staged file
remains at the temporary path, and the process exits with code 1. -/
theorem c2_cleanup_only_on_success (a : CliArgs) (o : ChildOutcome) (mv : MoveOutcome)
    (h1 : (a.clipboard && instructionsTruthy a.instructions) = false)
    (h2 : (!a.clipboard && !instructionsTruthy a.instructions) = false) :
    ((main_run a o mv).events.count RunEvent.unlinkTemp
        = if o = ChildOutcome.exits 0 then 1 else 0)
      ∧ ((main_run a o mv).tempRemains = decide (o ≠ ChildOutcome.exits 0))
      ∧ (o = ChildOutcome.exits 0 →
          (main_run a o mv).events.getLast? = some RunEvent.unlinkTemp)
      ∧ ((main_run a o mv).exitCode = if o = ChildOutcome.exits 0 then 0 else 1) := by
  cases o with
  | stageIOError => cases mv <;> simp [main_run, h1, h2]
  | exits n =>
    cases n with
    | zero => cases mv <;> simp [main_run, h1, h2]
    | succ m => cases mv <;> simp [main_run, h1, h2]
  | interrupted => cases mv <;> simp [main_run, h1, h2]
  | raised => cases mv <;> simp [main_run, h1, h2]

theorem c2_cleanup_only_on_success_witness :
    (((⟨true, none⟩ : CliArgs).clipboard && instructionsTruthy none) = false)
      ∧ ((!(⟨true, none⟩ : CliArgs).clipboard && !instructionsTruthy none) = false)
      ∧ (main_run ⟨true, none⟩ (ChildOutcome.exits 0) MoveOutcome.ok).events.getLast?
          = some RunEvent.unlinkTemp :=
  ⟨by decide, by decide,
    (c2_cleanup_only_on_success ⟨true, none⟩ (ChildOutcome.exits 0) MoveOutcome.ok
      (by decide) (by decide)).2.2.1 rfl⟩

/-- C8 counterexample: supplying both the clipboard flag and a (nonempty)
instruction file is a usage error reported before any resource is created,
but `parser.error` terminates the process with argparse's status 2, not 1. -/
theorem c8_usage_error_exits_2_not_1 :
    (main_run ⟨true, some "inst.txt"⟩ (ChildOutcome.exits 0) MoveOutcome.ok).events
        = [RunEvent.usageError]
      ∧ (main_run ⟨true, some "inst.txt"⟩ (ChildOutcome.exits 0) MoveOutcome.ok).exitCode = 2
      ∧ (main_run ⟨true, some "inst.txt"⟩ (ChildOutcome.exits 0) MoveOutcome.ok).exitCode
          ≠ 1 := by
  refine ⟨by decide, by decide, by decide⟩

/-- C8 amended: when both sources are supplied, or neither, the run
terminates with a usage error before the staged artifact is created or the
child is spawned, with argparse's usage-error exit code 2 (not 1). -/
theorem c8_usage_error_before_resources (a : CliArgs) (o : ChildOutcome) (mv : MoveOutcome)
    (h : (a.clipboard && instructionsTruthy a.instructions) = true
        ∨ (!a.clipboard && !instructionsTruthy a.instructions) = true) :
    (main_run a o mv).events = [RunEvent.usageError]
      ∧ (main_run a o mv).exitCode = 2
      ∧ RunEvent.stageWrite ∉ (main_run a o mv).events
      ∧ RunEvent.spawnChild ∉ (main_run a o mv).events := by
  rcases h with h | h
  · simp [main_run, h]
  · rw [Bool.and_eq_true] at h
    obtain ⟨ha, hb⟩ := h
    have ha2 : a.clipboard = false := by simpa using ha
    simp [main_run, ha2, hb]

theorem c8_usage_error_before_resources_witness :
    ((!(⟨false, none⟩ : CliArgs).clipboard && !instructionsTruthy none) = true)
      ∧ (main_run ⟨false, none⟩ (ChildOutcome.exits 0) MoveOutcome.ok).exitCode = 2 :=
  ⟨by decide,
    (c8_usage_error_before_resources ⟨false, none⟩ (ChildOutcome.exits 0) MoveOutcome.ok
      (Or.inr (by decide))).2.1⟩

/-- C1 evaluation at the failing input of spec section 8: for instructions
`"fix bug"` and the file mapping `{"a.py": "print(1)"}`, the document the
payload builder returns is exactly the fixed preamble plus the problem
description, identical to the document built from the empty file mapping.
The labeled fenced block `File: a.py` is assembled into `existing_code` at
line 37 but never included in the returned document of line 188, so the
document carries no file blocks at all. -/
theorem c1_file_blocks_never_embedded :
    create_message_content "fix bug" [("a.py", "print(1)")]
        = create_message_content "fix bug" []
      ∧ create_message_content "fix bug" [("a.py", "print(1)")]
        = prompt ++ "\n\n<problem_description>\n" ++ "fix bug" ++ "\n</problem_description>" :=
  ⟨rfl, rfl⟩

/-- C9: the payload builder's output depends only on the instruction text.
For any fixed instructions and any two file mappings whatsoever (including
the empty one), `create_message_content` returns identical documents, because
`existing_code` is computed and then dropped. -/
theorem c9_document_independent_of_files (instructions : String)
    (fc1 fc2 : List (String × String)) :
    create_message_content instructions fc1 = create_message_content instructions fc2 := rfl

end AiderWrapper
